import Mathlib

/-!
Shallow embedding of the `timer-module` repository (Python) for checking its
natural-language specification.

Sources embedded:
* `src/timer_module.py` — the `TimerModule` stopwatch class and the older
  `TimeProfilerBase` (flat module).
* `src/timer_module/profiler.py` — the packaged profiler: `ObjectCall`,
  `StdOut`, `TimeProfilerBase` with SHA1-based identity hashing.

Modelling conventions:
* Numbers are modelled exactly (no claim checked here is about float
  rounding): the profiler's accumulated times are sums of `time.time_ns()`
  integers and are modelled as `ℤ`; counters are `ℤ` (Python ints);
  `TimerModule`'s millisecond values and the report's true-division results
  are modelled as `ℚ`.
* Wall-clock reads (`time.time_ns`, `get_timestamp_ms`) are passed in as an
  explicit `now` argument.
* Python `dict` is modelled as an insertion-ordered association list;
  assignment replaces the value in place if the key is present, else appends.
  Python `set` is modelled as a duplicate-free list with append-on-add.
* Python exceptions are modelled explicitly: a state-mutating operation
  returns the state as it is at the moment of the raise together with
  `Except.error`, since mutations made before a raise persist in Python.
-/

/-- Python exceptions that can be raised by the embedded code paths.
`appError n` stands for an arbitrary exception raised by wrapped user code
(the index distinguishes exception objects). -/
inductive PyErr where
  | keyError : PyErr
  | zeroDivisionError : PyErr
  | appError : Nat → PyErr
deriving DecidableEq, Repr

/-- Python `a / b` (true division) on numbers: raises `ZeroDivisionError`
when the divisor is zero, otherwise yields the exact quotient. -/
def pyDiv (a b : ℚ) : Except PyErr ℚ :=
  if b = 0 then .error .zeroDivisionError else .ok (a / b)

instance {ε α : Type} [DecidableEq ε] [DecidableEq α] : DecidableEq (Except ε α) := fun a b =>
  match a, b with
  | .ok x, .ok y =>
      if h : x = y then .isTrue (by rw [h]) else .isFalse (fun hh => h (Except.ok.inj hh))
  | .error x, .error y =>
      if h : x = y then .isTrue (by rw [h]) else .isFalse (fun hh => h (Except.error.inj hh))
  | .ok _, .error _ => .isFalse (fun hh => Except.noConfusion hh)
  | .error _, .ok _ => .isFalse (fun hh => Except.noConfusion hh)

/-! ## `TimerModule` (src/timer_module.py, lines 28–78)

`__slots__ = ["is_running", "st_time", "cr_time"]`; `st_time` and `cr_time`
are milliseconds. `get_timestamp_ms` reads the wall clock; we pass its value
as an explicit `now` parameter to each method that calls it. -/

structure TimerModule where
  is_running : Bool
  st_time : ℚ
  cr_time : ℚ
deriving DecidableEq, Repr

namespace TimerModule

/-- `TimerModule.__init__` (lines 31–34). -/
def init : TimerModule := { is_running := false, st_time := 0, cr_time := 0 }

/-- `TimerModule.start` (lines 41–45): `now` is `get_timestamp_ms()`. -/
def start (tm : TimerModule) (now : ℚ) : TimerModule :=
  let tm := if ¬ tm.is_running then { tm with st_time := now - tm.cr_time } else tm
  { tm with is_running := true }

/-- `TimerModule.pause` (lines 47–51). -/
def pause (tm : TimerModule) (now : ℚ) : TimerModule :=
  let tm := if tm.is_running then { tm with cr_time := now - tm.st_time } else tm
  { tm with is_running := false }

/-- `TimerModule.reset` (lines 53–57). -/
def reset (_tm : TimerModule) : TimerModule :=
  { st_time := 0, cr_time := 0, is_running := false }

/-- `TimerModule.set_time` (lines 64–67): the parameter is annotated
`time_sec: int`, so it is modelled as `ℤ`. It sets
`cr_time = time_sec * 1000` and `st_time = get_timestamp_ms() - cr_time`. -/
def set_time (tm : TimerModule) (now : ℚ) (time_sec : ℤ) : TimerModule :=
  let cr : ℚ := (time_sec : ℚ) * 1000
  { tm with cr_time := cr, st_time := now - cr }

/-- `TimerModule.get_time` (lines 69–73): refreshes `cr_time` only while
running, then returns `cr_time / 1000` (seconds). Returns the possibly
mutated state together with the value. -/
def get_time (tm : TimerModule) (now : ℚ) : TimerModule × ℚ :=
  let tm := if tm.is_running then { tm with cr_time := now - tm.st_time } else tm
  (tm, tm.cr_time / 1000)

/-- `TimerModule.get_time_ms` (lines 75–78). -/
def get_time_ms (tm : TimerModule) (now : ℚ) : TimerModule × ℚ :=
  let tm := if tm.is_running then { tm with cr_time := now - tm.st_time } else tm
  (tm, tm.cr_time)

end TimerModule

/-! ## SHA-1 (hashlib.sha1, used by `TimeProfilerBase.hash_type_id`)

`hash_type_id` feeds `str(type_id).encode()` to `hashlib.sha1` and converts
the hex digest to an integer. We implement SHA-1 over a list of byte values
(as `Nat`s `< 256`), with 32-bit words as `Nat`s reduced `% 2^32`. -/

/-- Left-rotate a 32-bit word (a `Nat` below `2^32`) by `n` bits. -/
def rotl32 (x n : Nat) : Nat :=
  ((x <<< n) ||| (x >>> (32 - n))) % 4294967296

/-- Big-endian 8-byte encoding of a 64-bit length. -/
def be8 (n : Nat) : List Nat :=
  [(n >>> 56) % 256, (n >>> 48) % 256, (n >>> 40) % 256, (n >>> 32) % 256,
   (n >>> 24) % 256, (n >>> 16) % 256, (n >>> 8) % 256, n % 256]

/-- SHA-1 padding: append `0x80`, zero bytes to 56 mod 64, then the
message bit length as 8 big-endian bytes. -/
def sha1Pad (msg : List Nat) : List Nat :=
  let len := msg.length
  let z := (119 - (len % 64)) % 64
  msg ++ [128] ++ List.replicate z 0 ++ be8 (8 * len)

/-- Group bytes into big-endian 32-bit words (input length a multiple of 4). -/
def bytesToWords : List Nat → List Nat
  | b0 :: b1 :: b2 :: b3 :: rest =>
      (((b0 * 256 + b1) * 256 + b2) * 256 + b3) :: bytesToWords rest
  | _ => []

/-- Message-schedule expansion, on the reversed word list (newest word
first): `w[i] = rotl1 (w[i-3] xor w[i-8] xor w[i-14] xor w[i-16])`. -/
def sha1ExpandRev (revWs : List Nat) : Nat → List Nat
  | 0 => revWs
  | k + 1 =>
      let w := rotl32 ((revWs.getD 2 0) ^^^ (revWs.getD 7 0) ^^^
                       (revWs.getD 13 0) ^^^ (revWs.getD 15 0)) 1
      sha1ExpandRev (w :: revWs) k

/-- SHA-1 round function `f`. -/
def sha1F (i b c d : Nat) : Nat :=
  if i < 20 then (b &&& c) ||| ((b ^^^ 4294967295) &&& d)
  else if i < 40 then b ^^^ c ^^^ d
  else if i < 60 then (b &&& c) ||| (b &&& d) ||| (c &&& d)
  else b ^^^ c ^^^ d

/-- SHA-1 round constants. -/
def sha1K (i : Nat) : Nat :=
  if i < 20 then 1518500249
  else if i < 40 then 1859775393
  else if i < 60 then 2400959708
  else 3395469782

/-- One SHA-1 round on the state `(a, b, c, d, e)` with round index and
schedule word `(i, w)`. -/
def sha1Round : Nat × Nat × Nat × Nat × Nat → Nat × Nat → Nat × Nat × Nat × Nat × Nat
  | (a, b, c, d, e), (i, w) =>
      let t := (rotl32 a 5 + sha1F i b c d + e + sha1K i + w) % 4294967296
      (t, a, rotl32 b 30, c, d)

/-- Compress one 512-bit block (16 words) into the running hash state. -/
def sha1Compress (h : Nat × Nat × Nat × Nat × Nat) (block : List Nat) :
    Nat × Nat × Nat × Nat × Nat :=
  let words := (sha1ExpandRev block.reverse 64).reverse
  let s := ((List.range 80).zip words).foldl sha1Round h
  match h, s with
  | (h0, h1, h2, h3, h4), (a, b, c, d, e) =>
      ((h0 + a) % 4294967296, (h1 + b) % 4294967296, (h2 + c) % 4294967296,
       (h3 + d) % 4294967296, (h4 + e) % 4294967296)

/-- Process the padded word stream, one 16-word block at a time. -/
def sha1Blocks (h : Nat × Nat × Nat × Nat × Nat) : List Nat → Nat × Nat × Nat × Nat × Nat
  | w0 :: w1 :: w2 :: w3 :: w4 :: w5 :: w6 :: w7 ::
    w8 :: w9 :: w10 :: w11 :: w12 :: w13 :: w14 :: w15 :: rest =>
      sha1Blocks (sha1Compress h [w0, w1, w2, w3, w4, w5, w6, w7,
                                  w8, w9, w10, w11, w12, w13, w14, w15]) rest
  | _ => h

/-- SHA-1 digest of a byte string, as the 160-bit integer that Python's
`int(hasher.hexdigest(), 16)` yields. -/
def sha1Bytes (msg : List Nat) : Nat :=
  let words := bytesToWords (sha1Pad msg)
  match sha1Blocks (1732584193, 4023233417, 2562383102, 271733878, 3285377520) words with
  | (h0, h1, h2, h3, h4) =>
      (((h0 * 4294967296 + h1) * 4294967296 + h2) * 4294967296 + h3) * 4294967296 + h4

/-- UTF-8 bytes of an ASCII string (`str.encode()`); all strings fed to the
hash in this development are ASCII, where the encoding is the code points. -/
def asciiBytes (s : String) : List Nat :=
  s.toList.map Char.toNat

-- SHA-1 known-answer test: the digest of `"abc"`.
set_option maxRecDepth 100000 in
example : sha1Bytes (asciiBytes "abc") = 0xa9993e364706816aba3e25717850c26c9cd0d89d := by
  decide

/-! ## The packaged profiler (src/timer_module/profiler.py)

`TimeProfilerBase` keeps singleton state: `_object_refs : dict[int, ObjectCall]`
(the call registry), `_timing_refs : dict[int, set[int]]` (root-group
tracker), `_timing_total : float`, `_pcall_hash : Optional[int]`, plus the
`realtime` configuration flag. We embed the state as `ProfState`, adding a
`reports` counter that counts completed `_print_report` executions (the
report goes to stdout, which has no other state effect). -/

/-- A Python callable as far as the profiler observes it: a function or a
class, with `__module__`, `__qualname__`, and the object's memory address
(`id`), which CPython includes in `str()` of a function. -/
inductive PyKind where
  | function : PyKind
  | cls : PyKind
deriving DecidableEq, Repr

structure PyCallable where
  kind : PyKind
  module : String
  qualname : String
  addr : Nat
deriving DecidableEq, Repr

/-- Lowercase hexadecimal rendering of a `Nat` (CPython's `%p` / `%#x`). -/
def natToHex (n : Nat) : String :=
  String.mk (Nat.toDigits 16 n)

/-- CPython `str()` of a callable: functions render as
`<function qualname at 0xADDR>` (address included, module absent); classes
render as `<class 'module.qualname'>` (no address). -/
def pyStrRepr (c : PyCallable) : String :=
  match c.kind with
  | .function => "<function " ++ c.qualname ++ " at 0x" ++ natToHex c.addr ++ ">"
  | .cls => "<class '" ++ c.module ++ "." ++ c.qualname ++ "'>"

/-- `ObjectCall` (profiler.py lines 17–24): per-callable accumulated
statistics. `time_ns` holds sums of values of Python's `time.time_ns()`
(integer nanoseconds), so it is modelled as `ℤ` (exact; the Python field is
a float only because it is initialised to `0.0`, and no checked claim is
about float rounding). `ncalls` is a Python int. -/
structure ObjectCall where
  name : String
  module : String
  time_ns : ℤ
  ncalls : ℤ
deriving DecidableEq, Repr

/-- Python `dict[int, α]` lookup `d[k]` (the value, if present). -/
def dictGet {α : Type} (d : List (Nat × α)) (k : Nat) : Option α :=
  match d with
  | [] => none
  | (k', v) :: rest => if k' = k then some v else dictGet rest k

/-- Python `dict[int, α]` assignment `d[k] = v`: replaces in place if the
key exists (keeping insertion order), else appends. -/
def dictSet {α : Type} (d : List (Nat × α)) (k : Nat) (v : α) : List (Nat × α) :=
  match d with
  | [] => [(k, v)]
  | (k', v') :: rest => if k' = k then (k, v) :: rest else (k', v') :: dictSet rest k v

/-- Python `set.add`: membership-preserving insertion. -/
def setAdd (s : List Nat) (x : Nat) : List Nat :=
  if x ∈ s then s else s ++ [x]

/-- The profiler singleton's mutable state (profiler.py lines 104–114),
plus the `reports` instrumentation counter (completed report prints). -/
structure ProfState where
  object_refs : List (Nat × ObjectCall)
  timing_refs : List (Nat × List Nat)
  timing_total : ℤ
  pcall_hash : Option Nat
  realtime : Bool
  reports : Nat
deriving DecidableEq, Repr

/-- Fresh singleton state (profiler.py `__new__`, lines 107–114). -/
def initProfState (realtime : Bool) : ProfState :=
  { object_refs := [], timing_refs := [], timing_total := 0,
    pcall_hash := none, realtime := realtime, reports := 0 }

/-- Python `str != int`: comparison of a string with an integer is always
unequal, so the truth value is `true` whatever the operands. This embeds the
guard `obj_time != 0` in `StdOut.print_call` (line 64), where `obj_time` is
the *formatted string*, not the number. -/
def pyStrNeInt (_s : String) (_n : ℤ) : Bool := true

/-- Modelled from the spec: `TimeFormatter.auto_format_time` lives in
`src/timer_module/utils.py`, which is not under `src/`; the spec describes
the Duration Formatter as a pure function converting a raw nanosecond count
to a human-scaled string (ns/μs/ms/s), with no state. Its exact output text
is irrelevant to every claim below (only that it is a string). -/
def auto_format_time (ns : ℚ) : String :=
  if ns < 1000 then toString ns ++ "ns"
  else if ns < 1000000 then toString (ns / 1000) ++ "μs"
  else if ns < 1000000000 then toString (ns / 1000000) ++ "ms"
  else toString (ns / 1000000000) ++ "s"

/-- `StdOut.print_primary_call` (profiler.py lines 41–51): computes
`percall_time_ns = pcall_time_ns / pcall_ncalls` with no zero-guard
(Python `/` raises `ZeroDivisionError` on a zero divisor), then formats and
prints. We return the computed per-call average. -/
def print_primary_call (primary_call : ObjectCall) : Except PyErr ℚ := do
  let percall_time_ns ← pyDiv (primary_call.time_ns : ℚ) (primary_call.ncalls : ℚ)
  pure percall_time_ns

/-- `StdOut.print_call` (profiler.py lines 53–69): computes
`percall_time_ns = obj_time_ns / obj_ncalls` (unguarded), formats the
times, then computes `t_prc = 0` unless `obj_time != 0 and pcall_time != 0`
— where `obj_time` is the formatted *string*, so that conjunct is always
true — in which case `t_prc = (obj_time_ns / pcall_time) * 100`. Returns
`(percall_time_ns, t_prc)`. -/
def print_call (object_call : ObjectCall) (pcall_time : ℤ) : Except PyErr (ℚ × ℚ) := do
  let percall_time_ns ← pyDiv (object_call.time_ns : ℚ) (object_call.ncalls : ℚ)
  let obj_time := auto_format_time (object_call.time_ns : ℚ)
  let t_prc : ℚ := 0
  if pyStrNeInt obj_time 0 ∧ pcall_time ≠ 0 then
    let q ← pyDiv (object_call.time_ns : ℚ) (pcall_time : ℚ)
    pure (percall_time_ns, q * 100)
  else
    pure (percall_time_ns, t_prc)

/-- `StdOut.print_profiling_report` (profiler.py lines 79–100): iterates the
root groups in insertion order; for each root looks up its `ObjectCall`,
prints every non-root member via `print_call`, then the root via
`print_primary_call`. Any `KeyError` / `ZeroDivisionError` raised inside
propagates. -/
def print_profiling_report (object_refs : List (Nat × ObjectCall))
    (timing_refs : List (Nat × List Nat)) : Except PyErr Unit := do
  for pc in timing_refs do
    match dictGet object_refs pc.1 with
    | none => throw .keyError
    | some pcall_object =>
      let pcall_time := pcall_object.time_ns
      for ref_hash in pc.2 do
        if ref_hash = pc.1 then
          pure ()
        else
          match dictGet object_refs ref_hash with
          | none => throw .keyError
          | some object_call =>
            let _ ← print_call object_call pcall_time
            pure ()
      let _ ← print_primary_call pcall_object
  pure ()

/-- `TimeProfilerBase._print_report` (profiler.py lines 119–124): renders
the report from the current state. A completed render bumps the `reports`
counter; a raise propagates with the state otherwise unchanged. -/
def print_report (s : ProfState) : ProfState × Except PyErr Unit :=
  match print_profiling_report s.object_refs s.timing_refs with
  | .ok _ => ({ s with reports := s.reports + 1 }, .ok ())
  | .error e => (s, .error e)

/-- `TimeProfilerBase.hash_type_id` (profiler.py lines 163–168):
`int(sha1(str(type_id).encode()).hexdigest(), 16)`. -/
def hash_type_id (type_id : PyCallable) : Nat :=
  sha1Bytes (asciiBytes (pyStrRepr type_id))

/-- `TimeProfilerBase._create_object_call` (profiler.py lines 150–161):
fresh `ObjectCall` from `__qualname__` / `__module__` with zero time and
zero calls. -/
def create_object_call (obj : PyCallable) : ObjectCall :=
  { name := obj.qualname, module := obj.module, time_ns := 0, ncalls := 0 }

/-- `TimeProfilerBase._add_object_ref` (profiler.py lines 183–187):
computes the hash, builds a fresh zeroed `ObjectCall`, and assigns
`self._object_refs[hash_ref] = object_call` unconditionally — an existing
entry under the same hash is overwritten. Returns the hash. -/
def add_object_ref (s : ProfState) (obj : PyCallable) : ProfState × Nat :=
  let hash_ref := hash_type_id obj
  let object_call := create_object_call obj
  ({ s with object_refs := dictSet s.object_refs hash_ref object_call }, hash_ref)

/-- `TimeProfilerBase._set_pcall_hash` (profiler.py lines 170–181): if no
primary call is active, the entered hash becomes the primary call and its
group is (re)created empty; then the entered hash is added to the active
primary call's group. Returns `object_hash` (the entered hash) — not the
primary call hash. The lookup `self._timing_refs[pcall_hash]` can raise
`KeyError` only from a state whose active root has no group entry. -/
def set_pcall_hash (s : ProfState) (object_hash : Nat) : ProfState × Except PyErr Nat :=
  let pr : Nat × ProfState :=
    match s.pcall_hash with
    | none => (object_hash, { s with
                              pcall_hash := some object_hash,
                              timing_refs := dictSet s.timing_refs object_hash [] })
    | some p => (p, s)
  match dictGet pr.2.timing_refs pr.1 with
  | none => (pr.2, .error .keyError)
  | some pcall_timing =>
      ({ pr.2 with timing_refs := dictSet pr.2.timing_refs pr.1 (setAdd pcall_timing object_hash) },
       .ok object_hash)

/-- `TimeProfilerBase._append_object_profiling` (profiler.py lines
134–148): looks up `object_refs[object_hash]` (raising `KeyError`, before
any mutation, if the hash was never registered), adds the elapsed time and
bumps `ncalls`; then, when a primary call is active **and the finishing
hash differs from it** (the source condition is
`if not object_hash == pcall_obj`), accumulates the elapsed time into the
grand total, clears the primary-call slot, and in realtime mode prints the
report. -/
def append_object_profiling (s : ProfState) (object_hash : Nat) (time_ns : ℤ) :
    ProfState × Except PyErr Unit :=
  match dictGet s.object_refs object_hash with
  | none => (s, .error .keyError)
  | some object_call =>
    let object_call := { object_call with
      time_ns := object_call.time_ns + time_ns, ncalls := object_call.ncalls + 1 }
    let s1 := { s with object_refs := dictSet s.object_refs object_hash object_call }
    match s.pcall_hash with
    | none => (s1, .ok ())
    | some pcall_obj =>
      if ¬ object_hash = pcall_obj then
        let s2 := { s1 with timing_total := s1.timing_total + time_ns, pcall_hash := none }
        if s2.realtime then print_report s2 else (s2, .ok ())
      else (s1, .ok ())

/-- One invocation of the closure produced by
`TimeProfilerBase._function_wrapper` (profiler.py lines 220–231). The
underlying call's outcome (`result = func(*args, **kwargs)`) is passed in
as `outcome`; `elapsed` is `time_ns() - start_time`. There is no
`try/finally`: when `func` raises, the exception propagates immediately and
`_append_object_profiling` never runs. -/
def function_wrapper_call (s : ProfState) (main_ref : Nat) (elapsed : ℤ)
    (outcome : Except PyErr ℤ) : ProfState × Except PyErr ℤ :=
  match set_pcall_hash s main_ref with
  | (s1, .error e) => (s1, .error e)
  | (s1, .ok hash_ref) =>
    match outcome with
    | .error e => (s1, .error e)
    | .ok v =>
      match append_object_profiling s1 hash_ref elapsed with
      | (s2, .ok _) => (s2, .ok v)
      | (s2, .error e) => (s2, .error e)

/-- One awaited invocation of the closure produced by
`TimeProfilerBase._async_function_wrapper` (profiler.py lines 233–244);
its body is line-for-line that of the synchronous wrapper with `await`
added, so the state transformation is identical. -/
def async_function_wrapper_call (s : ProfState) (main_ref : Nat) (elapsed : ℤ)
    (outcome : Except PyErr ℤ) : ProfState × Except PyErr ℤ :=
  match set_pcall_hash s main_ref with
  | (s1, .error e) => (s1, .error e)
  | (s1, .ok hash_ref) =>
    match outcome with
    | .error e => (s1, .error e)
    | .ok v =>
      match append_object_profiling s1 hash_ref elapsed with
      | (s2, .ok _) => (s2, .ok v)
      | (s2, .error e) => (s2, .error e)

/-! ## Helper lemmas about the dictionary model -/

theorem dictGet_dictSet_self {α : Type} (d : List (Nat × α)) (k : Nat) (v : α) :
    dictGet (dictSet d k v) k = some v := by
  induction d with
  | nil => simp [dictSet, dictGet]
  | cons e rest ih =>
      obtain ⟨k', v'⟩ := e
      by_cases hk : k' = k
      · subst hk
        simp [dictSet, dictGet]
      · simp [dictSet, dictGet, hk, ih]

theorem mem_dictSet {α : Type} (d : List (Nat × α)) (k : Nat) (v : α) :
    ∀ e ∈ dictSet d k v, e ∈ d ∨ e = (k, v) := by
  induction d with
  | nil => simp [dictSet]
  | cons hd rest ih =>
      obtain ⟨k', v'⟩ := hd
      intro e he
      by_cases hk : k' = k
      · subst hk
        simp [dictSet] at he
        rcases he with he | he
        · right; simpa using he
        · left; simp [he]
      · simp [dictSet, hk] at he
        rcases he with he | he
        · left; simp [he]
        · rcases ih e he with h | h
          · left; simp [h]
          · right; exact h

theorem dictGet_mem {α : Type} (d : List (Nat × α)) (k : Nat) (v : α)
    (h : dictGet d k = some v) : (k, v) ∈ d := by
  induction d with
  | nil => simp [dictGet] at h
  | cons hd rest ih =>
      obtain ⟨k', v'⟩ := hd
      by_cases hk : k' = k
      · subst hk
        simp [dictGet] at h
        simp [h]
      · simp [dictGet, hk] at h
        exact List.mem_cons_of_mem _ (ih h)

/-- `_print_report` only renders: the registry, tracker, total and root
slot are untouched (only the completed-report counter can change). -/
theorem print_report_preserves (s : ProfState) :
    (print_report s).1.object_refs = s.object_refs ∧
    (print_report s).1.timing_refs = s.timing_refs ∧
    (print_report s).1.timing_total = s.timing_total ∧
    (print_report s).1.pcall_hash = s.pcall_hash := by
  unfold print_report
  cases print_profiling_report s.object_refs s.timing_refs <;> simp

/-! ## Claims about `TimerModule` -/

/-- C9: on a timer that is not running, `set_time t` followed by `get_time`
returns exactly `t`: `set_time` stores `t * 1000` (milliseconds) into
`cr_time` without touching `is_running`, and `get_time` on a non-running
timer returns `cr_time / 1000` without refreshing it. The wall-clock values
observed by the two calls (`now1`, `now2`) are arbitrary. -/
theorem C9_set_time_get_time_roundtrip (tm : TimerModule) (now1 now2 : ℚ) (t : ℤ)
    (h : tm.is_running = false) :
    (TimerModule.get_time (TimerModule.set_time tm now1 t) now2).2 = (t : ℚ) := by
  simp [TimerModule.set_time, TimerModule.get_time, h]

/-- C9 witness: a concrete paused timer, `set_time 3` then `get_time`. -/
theorem C9_witness :
    (TimerModule.get_time (TimerModule.set_time ⟨false, 2, 9⟩ 100 3) 250).2 = (3 : ℚ) :=
  C9_set_time_get_time_roundtrip ⟨false, 2, 9⟩ 100 250 3 rfl

/-- C10: when the timer is not running, `get_time` and `get_time_ms` leave
the whole state unchanged and return values independent of the clock (so
repeated calls agree); when it is running, they mutate exactly `cr_time`,
setting it to the freshly computed `now - st_time` while `st_time` and
`is_running` are untouched. -/
theorem C10_get_time_effects (tm : TimerModule) (now : ℚ) :
    (tm.is_running = false →
      TimerModule.get_time tm now = (tm, tm.cr_time / 1000) ∧
      TimerModule.get_time_ms tm now = (tm, tm.cr_time)) ∧
    (tm.is_running = true →
      TimerModule.get_time tm now =
        ({ tm with cr_time := now - tm.st_time }, (now - tm.st_time) / 1000) ∧
      TimerModule.get_time_ms tm now =
        ({ tm with cr_time := now - tm.st_time }, now - tm.st_time)) := by
  constructor
  · intro h
    simp [TimerModule.get_time, TimerModule.get_time_ms, h]
  · intro h
    simp [TimerModule.get_time, TimerModule.get_time_ms, h]

/-- C10 witness: evaluated on a concrete paused timer and a concrete
running timer. -/
theorem C10_witness :
    (TimerModule.get_time ⟨false, 5, 700⟩ 1000 = (⟨false, 5, 700⟩, 700 / 1000) ∧
     TimerModule.get_time_ms ⟨false, 5, 700⟩ 1000 = (⟨false, 5, 700⟩, 700)) ∧
    (TimerModule.get_time ⟨true, 5, 700⟩ 1000 = (⟨true, 5, 995⟩, 995 / 1000) ∧
     TimerModule.get_time_ms ⟨true, 5, 700⟩ 1000 = (⟨true, 5, 995⟩, 995)) := by
  refine ⟨(C10_get_time_effects ⟨false, 5, 700⟩ 1000).1 rfl, ?_⟩
  have h := (C10_get_time_effects ⟨true, 5, 700⟩ 1000).2 rfl
  norm_num at h ⊢
  exact h

set_option maxRecDepth 4000000

/-! ## Claims about identity resolution (`hash_type_id`) -/

/-- C4 counterexample: two function objects with identical `__module__` and
`__qualname__` but different memory addresses receive *different*
identities, because `str()` of a function embeds its address. Computed with
the full SHA-1 of the two concrete representation strings
`<function f at 0x1>` and `<function f at 0x2>`. -/
theorem C4_counterexample :
    (PyCallable.mk .function "m" "f" 1).module = (PyCallable.mk .function "m" "f" 2).module ∧
    (PyCallable.mk .function "m" "f" 1).qualname = (PyCallable.mk .function "m" "f" 2).qualname ∧
    hash_type_id (PyCallable.mk .function "m" "f" 1) ≠
      hash_type_id (PyCallable.mk .function "m" "f" 2) := by
  refine ⟨rfl, rfl, ?_⟩
  decide

/-- C4 (amended): the identity is a pure, deterministic function of the
callable's *string representation* — equal representations always hash
equal — and for **class** objects, whose representation is
`<class 'module.qualname'>`, it is a pure function of the
(module, qualified name) pair alone. For function objects the
representation includes the memory address, so the original claim fails
(see the counterexample). -/
theorem C4_identity_function_of_repr :
    (∀ c1 c2 : PyCallable, pyStrRepr c1 = pyStrRepr c2 →
        hash_type_id c1 = hash_type_id c2) ∧
    (∀ c1 c2 : PyCallable, c1.kind = PyKind.cls → c2.kind = PyKind.cls →
        c1.module = c2.module → c1.qualname = c2.qualname →
        hash_type_id c1 = hash_type_id c2) := by
  constructor
  · intro c1 c2 h
    unfold hash_type_id
    rw [h]
  · intro c1 c2 hk1 hk2 hm hq
    obtain ⟨k1, m1, q1, a1⟩ := c1
    obtain ⟨k2, m2, q2, a2⟩ := c2
    simp at hk1 hk2 hm hq
    subst hk1 hk2 hm hq
    rfl

/-- C4 witness: the class identity is address-independent at concrete
inputs, and equal representations hash equal. -/
theorem C4_witness :
    hash_type_id (PyCallable.mk .cls "m" "C" 3) = hash_type_id (PyCallable.mk .cls "m" "C" 4) ∧
    hash_type_id (PyCallable.mk .function "m" "f" 9) =
      hash_type_id (PyCallable.mk .function "m" "f" 9) :=
  ⟨C4_identity_function_of_repr.2 (PyCallable.mk .cls "m" "C" 3)
      (PyCallable.mk .cls "m" "C" 4) rfl rfl rfl rfl,
   C4_identity_function_of_repr.1 (PyCallable.mk .function "m" "f" 9)
      (PyCallable.mk .function "m" "f" 9) rfl⟩

/-! ## Claims about the root-call tracker (`_set_pcall_hash`) -/

/-- `_set_pcall_hash` never touches the registry or the grand total, and
always leaves the primary-call slot occupied: by the previously active root
if there was one, else by the entered hash. -/
theorem set_pcall_hash_state (s : ProfState) (h : Nat) :
    (set_pcall_hash s h).1.object_refs = s.object_refs ∧
    (set_pcall_hash s h).1.timing_total = s.timing_total ∧
    (set_pcall_hash s h).1.reports = s.reports ∧
    (set_pcall_hash s h).1.pcall_hash = some (s.pcall_hash.getD h) := by
  cases hp : s.pcall_hash with
  | none => simp [set_pcall_hash, hp, dictGet_dictSet_self]
  | some p =>
      cases hg : dictGet s.timing_refs p with
      | none => simp [set_pcall_hash, hp, hg]
      | some grp => simp [set_pcall_hash, hp, hg]

/-- C5 counterexample: from a state whose active root is identity `1`,
entering identity `2` returns `2` (the entered identity), not the active
root `1` that the claim requires as return value. -/
theorem C5_counterexample :
    (ProfState.mk [(1, ⟨"root", "m", 0, 0⟩)] [(1, [1])] 0 (some 1) false 0).pcall_hash
      = some 1 ∧
    (set_pcall_hash (ProfState.mk [(1, ⟨"root", "m", 0, 0⟩)] [(1, [1])] 0 (some 1) false 0) 2).2
      = .ok 2 ∧
    (set_pcall_hash (ProfState.mk [(1, ⟨"root", "m", 0, 0⟩)] [(1, [1])] 0 (some 1) false 0) 2).2
      ≠ .ok 1 := by
  refine ⟨rfl, by decide, by decide⟩

/-- C5 (amended): `enter` leaves the active root unchanged when one is
active, and only when no root is active does the entered identity become
the new root (with a freshly emptied group); in both cases the entered
identity is added to the *effective root's* group — but the operation
returns the **entered identity** in both cases, not the effective root
(the two coincide only in the new-root case). -/
theorem C5_enter_returns_entered_identity :
    (∀ (s : ProfState) (h p : Nat) (grp : List Nat),
        s.pcall_hash = some p → dictGet s.timing_refs p = some grp →
        set_pcall_hash s h =
          ({ s with timing_refs := dictSet s.timing_refs p (setAdd grp h) }, .ok h)) ∧
    (∀ (s : ProfState) (h : Nat),
        s.pcall_hash = none →
        set_pcall_hash s h =
          ({ s with pcall_hash := some h,
                    timing_refs := dictSet (dictSet s.timing_refs h []) h (setAdd [] h) },
           .ok h)) := by
  constructor
  · intro s h p grp hp hg
    simp [set_pcall_hash, hp, hg]
  · intro s h hp
    simp [set_pcall_hash, hp, dictGet_dictSet_self]

/-- C5 witness: both branches of the amended claim applied to concrete
states — an active root `1` receiving entry `2`, and an empty tracker
receiving entry `5`. -/
theorem C5_witness :
    set_pcall_hash (ProfState.mk [] [(1, [1])] 0 (some 1) false 0) 2 =
      ({ ProfState.mk [] [(1, [1])] 0 (some 1) false 0 with
         timing_refs := dictSet [(1, [1])] 1 (setAdd [1] 2) }, .ok 2) ∧
    set_pcall_hash (ProfState.mk [] [] 0 none false 0) 5 =
      ({ ProfState.mk [] [] 0 none false 0 with
         pcall_hash := some 5,
         timing_refs := dictSet (dictSet [] 5 []) 5 (setAdd [] 5) }, .ok 5) :=
  ⟨C5_enter_returns_entered_identity.1 (ProfState.mk [] [(1, [1])] 0 (some 1) false 0)
      2 1 [1] rfl rfl,
   C5_enter_returns_entered_identity.2 (ProfState.mk [] [] 0 none false 0) 5 rfl⟩

/-! ## Claims about report rendering (`StdOut.print_call`,
`StdOut.print_primary_call`) -/

/-- C6 counterexample: rendering an entry whose invocation count is 0
performs an unguarded division by zero — both the member line
(`print_call`) and the root line (`print_primary_call`) raise
`ZeroDivisionError` on the per-call average, refuting "report rendering
never performs a division by zero ... protected by explicit zero-guards". -/
theorem C6_counterexample :
    print_call (ObjectCall.mk "f" "m" 5 0) 10 = .error .zeroDivisionError ∧
    print_primary_call (ObjectCall.mk "root" "m" 5 0) = .error .zeroDivisionError := by
  constructor <;> rfl

/-- C6 (amended): the *percentage* is guarded — whenever the entry renders
at all (nonzero invocation count), a member time of 0 or a root time of 0
yields a percentage of exactly 0 without a division error (the guard's
`obj_time != 0` conjunct compares the formatted string against the integer
0, which is vacuously true in Python; the `pcall_time != 0` conjunct does
the guarding, and a zero member time yields `0 / pcall_time * 100 = 0`) —
but the *per-call averages* are not zero-guarded: a record with
`ncalls = 0` makes both `print_call` and `print_primary_call` raise
`ZeroDivisionError` rather than render. -/
theorem C6_percentage_guarded_percall_unguarded :
    (∀ (oc : ObjectCall) (pcall_time : ℤ), oc.ncalls ≠ 0 →
        (oc.time_ns = 0 ∨ pcall_time = 0) →
        print_call oc pcall_time = .ok ((oc.time_ns : ℚ) / (oc.ncalls : ℚ), 0)) ∧
    (∀ (oc : ObjectCall) (pcall_time : ℤ), oc.ncalls = 0 →
        print_call oc pcall_time = .error .zeroDivisionError) ∧
    (∀ oc : ObjectCall, oc.ncalls = 0 →
        print_primary_call oc = .error .zeroDivisionError) ∧
    (∀ oc : ObjectCall, oc.ncalls ≠ 0 →
        print_primary_call oc = .ok ((oc.time_ns : ℚ) / (oc.ncalls : ℚ))) := by
  refine ⟨?_, ?_, ?_, ?_⟩
  · intro oc pcall_time hn hz
    have hcast : (oc.ncalls : ℚ) ≠ 0 := by exact_mod_cast hn
    rcases hz with hz | hz
    · by_cases hp : pcall_time = 0
      · simp [print_call, pyDiv, hcast, hp, pyStrNeInt, Bind.bind, Except.bind, Pure.pure,
              Except.pure]
      · simp [print_call, pyDiv, hcast, hp, pyStrNeInt, hz, Bind.bind, Except.bind,
              Pure.pure, Except.pure, Prod.ext_iff]
    · simp [print_call, pyDiv, hcast, hz, pyStrNeInt, Bind.bind, Except.bind, Pure.pure,
            Except.pure]
  · intro oc pcall_time hn
    have hcast : (oc.ncalls : ℚ) = 0 := by exact_mod_cast hn
    simp [print_call, pyDiv, hcast, Bind.bind, Except.bind]
  · intro oc hn
    have hcast : (oc.ncalls : ℚ) = 0 := by exact_mod_cast hn
    simp [print_primary_call, pyDiv, hcast, Bind.bind, Except.bind]
  · intro oc hn
    have hcast : (oc.ncalls : ℚ) ≠ 0 := by exact_mod_cast hn
    simp [print_primary_call, pyDiv, hcast, Bind.bind, Except.bind, Pure.pure, Except.pure]

/-- C6 witness: the four amended cases applied at concrete records. -/
theorem C6_witness :
    print_call (ObjectCall.mk "f" "m" 0 2) 10 = .ok (((0 : ℤ) : ℚ) / ((2 : ℤ) : ℚ), 0) ∧
    print_call (ObjectCall.mk "g" "m" 4 0) 10 = .error .zeroDivisionError ∧
    print_primary_call (ObjectCall.mk "r" "m" 4 0) = .error .zeroDivisionError ∧
    print_primary_call (ObjectCall.mk "r" "m" 6 3) = .ok (((6 : ℤ) : ℚ) / ((3 : ℤ) : ℚ)) :=
  ⟨C6_percentage_guarded_percall_unguarded.1 (ObjectCall.mk "f" "m" 0 2) 10
      (by decide) (Or.inl rfl),
   C6_percentage_guarded_percall_unguarded.2.1 (ObjectCall.mk "g" "m" 4 0) 10 rfl,
   C6_percentage_guarded_percall_unguarded.2.2.1 (ObjectCall.mk "r" "m" 4 0) rfl,
   C6_percentage_guarded_percall_unguarded.2.2.2 (ObjectCall.mk "r" "m" 6 3) (by decide)⟩

/-! ## Claims about the call registry (`_append_object_profiling`,
`_add_object_ref`) -/

theorem print_report_object_refs (s : ProfState) :
    (print_report s).1.object_refs = s.object_refs :=
  (print_report_preserves s).1

/-- `_append_object_profiling` either leaves the registry untouched (the
`KeyError` path) or replaces exactly the looked-up record with its updated
statistics. -/
theorem append_object_refs_cases (s : ProfState) (h : Nat) (t : ℤ) :
    ((append_object_profiling s h t).1.object_refs = s.object_refs ∧
      dictGet s.object_refs h = none) ∨
    ∃ oc, dictGet s.object_refs h = some oc ∧
      (append_object_profiling s h t).1.object_refs =
        dictSet s.object_refs h
          { oc with time_ns := oc.time_ns + t, ncalls := oc.ncalls + 1 } := by
  unfold append_object_profiling
  cases hget : dictGet s.object_refs h with
  | none => left; exact ⟨rfl, rfl⟩
  | some oc =>
      right
      refine ⟨oc, rfl, ?_⟩
      cases hp : s.pcall_hash with
      | none => rfl
      | some p =>
          by_cases hep : h = p
          · simp [hep]
          · simp only [hep, not_false_iff, if_pos, if_true]
            split
            · exact print_report_object_refs _
            · rfl

/-- C7: recording an invocation for an identity absent from the registry
raises `KeyError` (the lookup error) with the whole profiler state exactly
as before — no record created or mutated, grand total and root slot
untouched; for a registered identity it adds the elapsed time to the
record's cumulative time and increments its invocation count by exactly
one. -/
theorem C7_record_invocation_contract :
    (∀ (s : ProfState) (h : Nat) (t : ℤ),
        dictGet s.object_refs h = none →
        append_object_profiling s h t = (s, .error .keyError)) ∧
    (∀ (s : ProfState) (h : Nat) (t : ℤ) (oc : ObjectCall),
        dictGet s.object_refs h = some oc →
        dictGet (append_object_profiling s h t).1.object_refs h =
          some { oc with time_ns := oc.time_ns + t, ncalls := oc.ncalls + 1 }) := by
  constructor
  · intro s h t hget
    unfold append_object_profiling
    rw [hget]
  · intro s h t oc hget
    rcases append_object_refs_cases s h t with ⟨_, hnone⟩ | ⟨oc', hget', hrefs⟩
    · rw [hget] at hnone; cases hnone
    · rw [hget] at hget'
      injection hget' with hoc
      subst hoc
      rw [hrefs, dictGet_dictSet_self]

/-- C7 witness: an unregistered identity (hash 5 against an empty registry)
raises with the state unchanged; a registered identity's record gains the
elapsed time and one call. -/
theorem C7_witness :
    append_object_profiling (ProfState.mk [] [] 0 none false 0) 5 3 =
      (ProfState.mk [] [] 0 none false 0, .error .keyError) ∧
    dictGet (append_object_profiling
        (ProfState.mk [(5, ⟨"f", "m", 2, 1⟩)] [] 0 none false 0) 5 3).1.object_refs 5 =
      some ⟨"f", "m", 2 + 3, 1 + 1⟩ :=
  ⟨C7_record_invocation_contract.1 (ProfState.mk [] [] 0 none false 0) 5 3 rfl,
   C7_record_invocation_contract.2 (ProfState.mk [(5, ⟨"f", "m", 2, 1⟩)] [] 0 none false 0)
      5 3 ⟨"f", "m", 2, 1⟩ rfl⟩

/-- C1: the leave bookkeeping in `_append_object_profiling` fires on the
**inverted** condition `if not object_hash == pcall_obj`. Evaluated on a
concrete live-reporting state whose active root is identity `1` (root
record: 10 ns over 1 call; nested record for identity `2` empty): when the
root itself completes (elapsed 5), the root slot stays occupied, the grand
total stays 0 and no report is printed; when the nested identity `2`
completes (elapsed 3), the root slot is cleared, the nested call's elapsed
time is accumulated into the grand total and the report fires — exactly
opposite to the claimed (and spec'd, and `src/timer_module.py`-implemented)
behaviour. -/
theorem C1_leave_fires_on_inverted_condition :
    ((append_object_profiling
        (ProfState.mk [(1, ⟨"root", "m", 10, 1⟩), (2, ⟨"nested", "m", 0, 0⟩)]
          [(1, [1, 2])] 0 (some 1) true 0) 1 5).1.pcall_hash = some 1 ∧
     (append_object_profiling
        (ProfState.mk [(1, ⟨"root", "m", 10, 1⟩), (2, ⟨"nested", "m", 0, 0⟩)]
          [(1, [1, 2])] 0 (some 1) true 0) 1 5).1.timing_total = 0 ∧
     (append_object_profiling
        (ProfState.mk [(1, ⟨"root", "m", 10, 1⟩), (2, ⟨"nested", "m", 0, 0⟩)]
          [(1, [1, 2])] 0 (some 1) true 0) 1 5).1.reports = 0) ∧
    ((append_object_profiling
        (ProfState.mk [(1, ⟨"root", "m", 10, 1⟩), (2, ⟨"nested", "m", 0, 0⟩)]
          [(1, [1, 2])] 0 (some 1) true 0) 2 3).1.pcall_hash = none ∧
     (append_object_profiling
        (ProfState.mk [(1, ⟨"root", "m", 10, 1⟩), (2, ⟨"nested", "m", 0, 0⟩)]
          [(1, [1, 2])] 0 (some 1) true 0) 2 3).1.timing_total = 3 ∧
     (append_object_profiling
        (ProfState.mk [(1, ⟨"root", "m", 10, 1⟩), (2, ⟨"nested", "m", 0, 0⟩)]
          [(1, [1, 2])] 0 (some 1) true 0) 2 3).1.reports = 1) := by
  refine ⟨⟨rfl, by decide, rfl⟩, ⟨?_, by decide, ?_⟩⟩ <;> decide

/-- C3: re-registering an identity that already holds accumulated
statistics resets them to zero: `_add_object_ref` assigns a fresh zeroed
`ObjectCall` unconditionally. Evaluated with the real SHA-1 identity of the
class `m.C`, whose record holds 7 ns over 2 calls before re-registration. -/
theorem C3_reregistration_resets_statistics :
    (add_object_ref
        (ProfState.mk [(hash_type_id (PyCallable.mk .cls "m" "C" 0), ⟨"C", "m", 7, 2⟩)]
          [] 0 none false 0)
        (PyCallable.mk .cls "m" "C" 0)).1.object_refs =
      [(hash_type_id (PyCallable.mk .cls "m" "C" 0), ⟨"C", "m", 0, 0⟩)] := by
  decide

/-! ## Claims about the wrapper closures -/

/-- C2 counterexample: a concrete invocation in which the wrapped function
raises. Identity `2` is registered with zero statistics and no root is
active; the wrapped call enters (claiming the root slot), then the
underlying function raises `appError 0`. The wrapper propagates the
exception, but the leave bookkeeping never runs: the record still shows
0 calls and 0 time, and the root slot is left occupied by `2` — refuting
the claim that count/time are updated and the root slot is cleared. -/
theorem C2_counterexample :
    function_wrapper_call (ProfState.mk [(2, ⟨"f", "m", 0, 0⟩)] [] 0 none false 0) 2 7
        (.error (.appError 0)) =
      (ProfState.mk [(2, ⟨"f", "m", 0, 0⟩)] [(2, [2])] 0 (some 2) false 0,
       .error (.appError 0)) := by
  decide

/-- C2 (amended): for both the synchronous and the asynchronous wrapper,
when the underlying callable raises, the exception propagates unchanged to
the caller — but, there being no `try/finally`, the leave bookkeeping is
skipped: the final state is exactly the post-`enter` state, so the
registry records and the grand total are unchanged and the root slot is
left occupied (by the prior root, or by this call if it had just claimed
the slot) rather than cleared. -/
theorem C2_exception_propagates_but_skips_leave :
    ∀ (s : ProfState) (main_ref : Nat) (elapsed : ℤ) (e : PyErr) (s1 : ProfState) (h : Nat),
      set_pcall_hash s main_ref = (s1, .ok h) →
      function_wrapper_call s main_ref elapsed (.error e) = (s1, .error e) ∧
      async_function_wrapper_call s main_ref elapsed (.error e) = (s1, .error e) ∧
      s1.object_refs = s.object_refs ∧
      s1.timing_total = s.timing_total ∧
      s1.pcall_hash = some (s.pcall_hash.getD main_ref) := by
  intro s main_ref elapsed e s1 h hset
  have hfst : (set_pcall_hash s main_ref).1 = s1 := by rw [hset]
  have hstate := set_pcall_hash_state s main_ref
  rw [hfst] at hstate
  refine ⟨?_, ?_, hstate.1, hstate.2.1, hstate.2.2.2⟩
  · unfold function_wrapper_call
    rw [hset]
  · unfold async_function_wrapper_call
    rw [hset]

/-- C2 witness: the amended claim applied to the concrete failing
invocation of the counterexample. -/
theorem C2_witness :
    function_wrapper_call (ProfState.mk [(2, ⟨"f", "m", 0, 0⟩)] [] 0 none false 0) 2 7
        (.error (.appError 1)) =
      (ProfState.mk [(2, ⟨"f", "m", 0, 0⟩)] [(2, [2])] 0 (some 2) false 0,
       .error (.appError 1)) ∧
    async_function_wrapper_call (ProfState.mk [(2, ⟨"f", "m", 0, 0⟩)] [] 0 none false 0) 2 7
        (.error (.appError 1)) =
      (ProfState.mk [(2, ⟨"f", "m", 0, 0⟩)] [(2, [2])] 0 (some 2) false 0,
       .error (.appError 1)) ∧
    (ProfState.mk [(2, ⟨"f", "m", 0, 0⟩)] [(2, [2])] 0 (some 2) false 0).object_refs =
      (ProfState.mk [(2, ⟨"f", "m", 0, 0⟩)] [] 0 none false 0).object_refs ∧
    (ProfState.mk [(2, ⟨"f", "m", 0, 0⟩)] [(2, [2])] 0 (some 2) false 0).timing_total =
      (ProfState.mk [(2, ⟨"f", "m", 0, 0⟩)] [] 0 none false 0).timing_total ∧
    (ProfState.mk [(2, ⟨"f", "m", 0, 0⟩)] [(2, [2])] 0 (some 2) false 0).pcall_hash =
      some ((ProfState.mk [(2, ⟨"f", "m", 0, 0⟩)] [] 0 none false 0).pcall_hash.getD 2) :=
  C2_exception_propagates_but_skips_leave
    (ProfState.mk [(2, ⟨"f", "m", 0, 0⟩)] [] 0 none false 0) 2 7 (.appError 1)
    (ProfState.mk [(2, ⟨"f", "m", 0, 0⟩)] [(2, [2])] 0 (some 2) false 0) 2 (by decide)

/-! ## Claim C8: the registry invariant -/

/-- An operation on the registry as §4.2 of the spec describes them:
registering a callable, or recording an invocation. -/
inductive RegistryOp where
  | register (c : PyCallable)
  | record (h : Nat) (t : ℤ)

/-- A `record` operation carries a non-negative elapsed time. -/
def op_nonneg : RegistryOp → Prop
  | .register _ => True
  | .record _ t => 0 ≤ t

instance (op : RegistryOp) : Decidable (op_nonneg op) :=
  match op with
  | .register _ => isTrue trivial
  | .record _ t => inferInstanceAs (Decidable (0 ≤ t))

/-- Run a sequence of registry operations through the embedded
`_add_object_ref` / `_append_object_profiling`, threading the state (a
raised `KeyError` leaves the state as it was at the raise, as in Python). -/
def run_registry_ops (s : ProfState) : List RegistryOp → ProfState
  | [] => s
  | .register c :: rest => run_registry_ops (add_object_ref s c).1 rest
  | .record h t :: rest => run_registry_ops (append_object_profiling s h t).1 rest

/-- The CallRecord invariant of §3 of the spec, over every record in the
registry. -/
def call_record_inv (s : ProfState) : Prop :=
  ∀ e ∈ s.object_refs, 0 ≤ e.2.ncalls ∧ (e.2.ncalls = 0 → e.2.time_ns = 0)

theorem call_record_inv_register (s : ProfState) (c : PyCallable)
    (hs : call_record_inv s) : call_record_inv (add_object_ref s c).1 := by
  intro e he
  unfold add_object_ref at he
  simp only at he
  rcases mem_dictSet _ _ _ e he with h1 | h1
  · exact hs e h1
  · rw [h1]
    simp [create_object_call]

theorem call_record_inv_record (s : ProfState) (h : Nat) (t : ℤ)
    (hs : call_record_inv s) : call_record_inv (append_object_profiling s h t).1 := by
  rcases append_object_refs_cases s h t with ⟨hrefs, _⟩ | ⟨oc, hget, hrefs⟩
  · intro e he
    rw [hrefs] at he
    exact hs e he
  · intro e he
    rw [hrefs] at he
    rcases mem_dictSet _ _ _ e he with h1 | h1
    · exact hs e h1
    · have hoc := hs (h, oc) (dictGet_mem _ _ _ hget)
      rw [h1]
      have hn : 0 ≤ oc.ncalls := hoc.1
      refine ⟨?_, ?_⟩
      · show 0 ≤ oc.ncalls + 1
        omega
      · intro h0
        have h0' : oc.ncalls + 1 = 0 := h0
        exfalso
        omega

/-- C8: starting from the fresh singleton state, after any sequence of
register / record-invocation operations with non-negative elapsed times,
every CallRecord in the registry has a non-negative invocation count, and
a zero invocation count implies a zero cumulative time. -/
theorem C8_registry_invariant (realtime : Bool) (ops : List RegistryOp)
    (_hops : ∀ op ∈ ops, op_nonneg op) :
    call_record_inv (run_registry_ops (initProfState realtime) ops) := by
  have main : ∀ (l : List RegistryOp) (s : ProfState), call_record_inv s →
      call_record_inv (run_registry_ops s l) := by
    intro l
    induction l with
    | nil => intro s hs; exact hs
    | cons op rest ih =>
        intro s hs
        cases op with
        | register c => exact ih _ (call_record_inv_register s c hs)
        | record h t => exact ih _ (call_record_inv_record s h t hs)
  apply main
  intro e he
  simp [initProfState] at he

/-- C8 witness: a concrete teardown — register the class `m.C`, record two
invocations against its real SHA-1 identity (one against a bogus identity,
which raises and leaves the state unchanged), and check the invariant. -/
theorem C8_witness :
    call_record_inv (run_registry_ops (initProfState false)
      [RegistryOp.register (PyCallable.mk .cls "m" "C" 0),
       RegistryOp.record (hash_type_id (PyCallable.mk .cls "m" "C" 0)) 5,
       RegistryOp.record 12345 9,
       RegistryOp.record (hash_type_id (PyCallable.mk .cls "m" "C" 0)) 0]) :=
  C8_registry_invariant false
    [RegistryOp.register (PyCallable.mk .cls "m" "C" 0),
     RegistryOp.record (hash_type_id (PyCallable.mk .cls "m" "C" 0)) 5,
     RegistryOp.record 12345 9,
     RegistryOp.record (hash_type_id (PyCallable.mk .cls "m" "C" 0)) 0]
    (by decide)
